import Mathlib

/-!
Shallow embedding of the dental-prosthesis platform core
(order/quote workflow, pricing-factor resolution, access control,
chat read state) from the JavaScript source under src/.

Money amounts (DECIMAL columns) are modelled as rationals (ℚ),
timestamps (DATE columns, JS Date.now values) as integers (milliseconds),
enum-typed columns as Lean inductives or as their string labels where the
SQL queries compare/order them as database enum values.
-/

namespace ProjectG

/-- JavaScript `x || dflt` on a nullable numeric value: `null`/`undefined`
parse to NaN (falsy, replaced by the default) and `0` is falsy as well,
so both `none` and `some 0` yield the default. Used for the
`parseFloat(v) || d` idiom in the Quote model hooks. -/
def jsOr (v : Option ℚ) (dflt : ℚ) : ℚ :=
  match v with
  | none => dflt
  | some x => if x = 0 then dflt else x

/-- JavaScript truthiness test `if (s) ...` for an optional string:
`undefined` and the empty string are falsy. Used in the status-update
route for `notes`, `trackingNumber`, `shippingCompany`. -/
def strKeep (v : Option String) (old : Option String) : Option String :=
  match v with
  | none => old
  | some s => if s = "" then old else some s

/-- Order.status enum from src/server/models/Order.js. -/
inductive OrderStatus
  | quote_asked
  | quote_sent
  | quote_validated
  | in_production
  | in_shipping
  | delivered
  | cancelled
deriving DecidableEq, Fintype, Repr

/-- Quote.status enum from src/server/models/Quote.js (default 'draft'). -/
inductive QuoteStatus
  | draft
  | sent
  | accepted
  | rejected
  | modified
deriving DecidableEq, Fintype, Repr

/-- User.role values used by the middleware and routes. -/
inductive Role
  | admin
  | dentist
  | supplier
deriving DecidableEq, Fintype, Repr

/-- The slice of a User row the routes consult. -/
structure UserRec where
  id : Nat
  role : Role
deriving DecidableEq, Repr

/-- A pricing_factors row (src/server/models/PricingFactor.js).
The category/material/urgency columns are database enums whose last
declared label is 'general'; they are kept as string labels here because
getApplicableFactor both filters and ORDER-BYs them as enum values.
createdAt is the Sequelize timestamp used for the final tie break. -/
structure PricingFactorRow where
  id : Nat
  supplierId : Option Nat
  isDefault : Bool
  factor : ℚ
  validFrom : Int
  validUntil : Option Int
  category : String
  material : String
  urgency : String
  minOrderValue : Option ℚ
  maxOrderValue : Option ℚ
  isActive : Bool
  createdAt : Int
deriving DecidableEq, Repr

/-- Position of a label in the PricingFactor.category enum declaration
('crown', 'bridge', 'implant', 'denture', 'veneer', 'inlay', 'onlay',
'general'). PostgreSQL orders enum columns by declaration position, so
ORDER BY category uses this rank. -/
def categoryEnumOrd : String → Nat
  | "crown" => 0
  | "bridge" => 1
  | "implant" => 2
  | "denture" => 3
  | "veneer" => 4
  | "inlay" => 5
  | "onlay" => 6
  | "general" => 7
  | _ => 8

/-- Position of a label in the PricingFactor.material enum declaration
('ceramic', 'porcelain', 'metal', 'zirconia', 'composite', 'acrylic',
'general'). -/
def materialEnumOrd : String → Nat
  | "ceramic" => 0
  | "porcelain" => 1
  | "metal" => 2
  | "zirconia" => 3
  | "composite" => 4
  | "acrylic" => 5
  | "general" => 6
  | _ => 7

/-- Position of a label in the PricingFactor.urgency enum declaration
('low', 'medium', 'high', 'urgent', 'general'). -/
def urgencyEnumOrd : String → Nat
  | "low" => 0
  | "medium" => 1
  | "high" => 2
  | "urgent" => 3
  | "general" => 4
  | _ => 5

/-- WHERE clause of the first (supplier-scoped) findOne in
PricingFactor.getApplicableFactor: supplierId equals the order's
supplier, rule active, validFrom <= now, validUntil null or >= now,
category/material/urgency each IN (order value, 'general'), and
min/maxOrderValue null or enclosing the order value. -/
def matchesSupplierRule (now : Int) (supplierId : Nat)
    (category material urgency : String) (orderValue : ℚ)
    (r : PricingFactorRow) : Bool :=
  r.supplierId == some supplierId &&
  r.isActive &&
  decide (r.validFrom ≤ now) &&
  (match r.validUntil with
   | none => true
   | some t => decide (now ≤ t)) &&
  (r.category == category || r.category == "general") &&
  (r.material == material || r.material == "general") &&
  (r.urgency == urgency || r.urgency == "general") &&
  (match r.minOrderValue with
   | none => true
   | some m => decide (m ≤ orderValue)) &&
  (match r.maxOrderValue with
   | none => true
   | some m => decide (orderValue ≤ m))

/-- WHERE clause of the fallback findOne in getApplicableFactor: the same
as the supplier-scoped clause except the supplierId equality is replaced
by isDefault = true. -/
def matchesDefaultRule (now : Int)
    (category material urgency : String) (orderValue : ℚ)
    (r : PricingFactorRow) : Bool :=
  r.isDefault &&
  r.isActive &&
  decide (r.validFrom ≤ now) &&
  (match r.validUntil with
   | none => true
   | some t => decide (now ≤ t)) &&
  (r.category == category || r.category == "general") &&
  (r.material == material || r.material == "general") &&
  (r.urgency == urgency || r.urgency == "general") &&
  (match r.minOrderValue with
   | none => true
   | some m => decide (m ≤ orderValue)) &&
  (match r.maxOrderValue with
   | none => true
   | some m => decide (orderValue ≤ m))

/-- The ORDER BY of both findOne calls: category DESC, material DESC,
urgency DESC, createdAt DESC, with the enum columns compared by their
PostgreSQL declaration rank. `pfPrecedes a b` holds when row `a` sorts
strictly before row `b`. -/
def pfPrecedes (a b : PricingFactorRow) : Bool :=
  categoryEnumOrd a.category > categoryEnumOrd b.category ||
  (categoryEnumOrd a.category == categoryEnumOrd b.category &&
   (materialEnumOrd a.material > materialEnumOrd b.material ||
    (materialEnumOrd a.material == materialEnumOrd b.material &&
     (urgencyEnumOrd a.urgency > urgencyEnumOrd b.urgency ||
      (urgencyEnumOrd a.urgency == urgencyEnumOrd b.urgency &&
       decide (a.createdAt > b.createdAt))))))

/-- findOne with an ORDER BY: the first row of the sorted result set,
i.e. a row no other selected row strictly precedes (ties beyond
createdAt keep the earlier row of the list). -/
def pfFindOne (rows : List PricingFactorRow) : Option PricingFactorRow :=
  rows.foldl
    (fun acc r =>
      match acc with
      | none => some r
      | some a => if pfPrecedes r a then some r else some a)
    none

/-- PricingFactor.getApplicableFactor (src/server/models/PricingFactor.js,
lines 140-188): first findOne over supplier-scoped matches with the
DESC ordering; if none, the same search restricted to isDefault rules. -/
def getApplicableFactor (rules : List PricingFactorRow) (now : Int)
    (supplierId : Nat) (category material urgency : String)
    (orderValue : ℚ) : Option PricingFactorRow :=
  match pfFindOne (rules.filter
      (matchesSupplierRule now supplierId category material urgency orderValue)) with
  | some f => some f
  | none =>
      pfFindOne (rules.filter
        (matchesDefaultRule now category material urgency orderValue))

/-- One millisecond-count day, as in the route code's
`24 * 60 * 60 * 1000`. -/
def dayMs : Int := 86400000

/-- The slice of an orders row (src/server/models/Order.js) the specified
routes read or write. prosthesisType, material and urgency are kept as
string labels because the quote-creation route forwards them verbatim to
getApplicableFactor; orders created through the create-order route always
have them set (the route validates their presence). -/
structure OrderRec where
  id : String
  dentistId : Nat
  supplierId : Nat
  status : OrderStatus
  title : String
  description : Option String
  patientName : Option String
  patientAge : Option Nat
  patientGender : Option String
  toothNumbers : List Nat
  prosthesisType : String
  material : String
  color : Option String
  urgency : String
  expectedDelivery : Option Int
  actualDelivery : Option Int
  originalQuote : Option ℚ
  adjustedQuote : Option ℚ
  pricingFactor : Option ℚ
  notes : Option String
  trackingNumber : Option String
  shippingCompany : Option String
deriving DecidableEq, Repr

/-- The validTransitions table of the update-order-status route
(src/unnamed/part_000, lines 177-185). -/
def validTransitions : OrderStatus → List OrderStatus
  | .quote_asked => [.quote_sent, .cancelled]
  | .quote_sent => [.quote_validated, .cancelled]
  | .quote_validated => [.in_production, .cancelled]
  | .in_production => [.in_shipping, .cancelled]
  | .in_shipping => [.delivered, .cancelled]
  | .delivered => []
  | .cancelled => []

/-- Body of a PUT /:id/status request (validated fields plus the two
destructured but unvalidated tracking fields). -/
structure StatusBody where
  status : OrderStatus
  notes : Option String
  trackingNumber : Option String
  shippingCompany : Option String
deriving DecidableEq, Repr

/-- Outcome of the update-order-status route: success, or the 400
response `Invalid status transition from <from> to <to>` carrying the
offending pair. -/
inductive StatusOutcome
  | ok
  | invalidTransition (fromStatus : OrderStatus) (toStatus : OrderStatus)
deriving DecidableEq, Repr

/-- The update-order-status route (src/unnamed/part_000, lines 160-231)
after authentication and access control: validate the transition against
validTransitions; on success write the new status (plus truthy notes and
tracking fields), stamping expectedDelivery 14 days out when entering
in_production and actualDelivery when entering delivered. The first
component is the stored order after the request: unchanged on failure. -/
def updateOrderStatusRoute (now : Int) (o : OrderRec) (b : StatusBody) :
    OrderRec × StatusOutcome :=
  if (validTransitions o.status).contains b.status then
    ({ o with
        status := b.status
        notes := strKeep b.notes o.notes
        trackingNumber := strKeep b.trackingNumber o.trackingNumber
        shippingCompany := strKeep b.shippingCompany o.shippingCompany
        expectedDelivery :=
          if b.status = .in_production then some (now + 14 * dayMs)
          else o.expectedDelivery
        actualDelivery :=
          if b.status = .delivered then some now else o.actualDelivery },
     .ok)
  else
    (o, .invalidTransition o.status b.status)

/-- Statuses observed after each successful update while replaying a list
of status-update requests (failed requests leave the order unchanged). -/
def observedStatuses (now : Int) (o : OrderRec) :
    List StatusBody → List OrderStatus
  | [] => []
  | b :: rest =>
      match updateOrderStatusRoute now o b with
      | (o', .ok) => o'.status :: observedStatuses now o' rest
      | (_, .invalidTransition _ _) => observedStatuses now o rest

/-- The status-graph edge relation exactly as the claim describes it: the
successor edges of the chain quote_asked → quote_sent → quote_validated →
in_production → in_shipping → delivered, plus an edge to cancelled from
every non-terminal state, with delivered and cancelled terminal. -/
def chainSuccessor : OrderStatus → Option OrderStatus
  | .quote_asked => some .quote_sent
  | .quote_sent => some .quote_validated
  | .quote_validated => some .in_production
  | .in_production => some .in_shipping
  | .in_shipping => some .delivered
  | .delivered => none
  | .cancelled => none

/-- Boolean form of the claimed transition graph. -/
def specEdge (f t : OrderStatus) : Bool :=
  chainSuccessor f == some t ||
  (t == .cancelled && f != .delivered && f != .cancelled)

/-- The slice of a quotes row (src/server/models/Quote.js) the specified
routes read or write. The specifications JSON blob is omitted: no
specified behaviour reads it. totalPrice is an Option because the
attribute of an in-memory instance stays unset until something assigns
it; the column itself is NOT NULL with no default, so an instance whose
totalPrice is never assigned fails validation on save, while every
stored row carries a value. -/
structure QuoteRec where
  id : String
  orderId : String
  supplierId : Nat
  status : QuoteStatus
  basePrice : ℚ
  materialCost : Option ℚ
  laborCost : Option ℚ
  shippingCost : Option ℚ
  taxAmount : Option ℚ
  totalPrice : Option ℚ
  adjustedPrice : Option ℚ
  pricingFactor : Option ℚ
  validUntil : Option Int
  productionTime : Option Nat
  shippingTime : Option Nat
  notes : Option String
  revisionNumber : Nat
  acceptedAt : Option Int
  acceptedBy : Option Nat
  rejectionReason : Option String
deriving DecidableEq, Repr

/-- Sequelize's Instance#changed(key) tests one string key against the
instance's changed-attribute set, a set of attribute-name strings (v6
does Set.has(key), v4/v5 a property lookup on a string-keyed object).
Both Quote.beforeSave hooks instead pass an ARRAY of attribute names:
an array is never an element of a set of strings (and as a property key
it coerces to the comma-joined name list, which names no attribute), so
the lookup misses in every instance state and the guard is false
whatever attributes actually changed. -/
def changedArrayOfNames (_changed _names : List String) : Bool :=
  false

/-- First Quote.beforeSave hook (src/server/models/Quote.js, lines
128-138): guarded by quote.changed(['basePrice', 'materialCost',
'laborCost', 'shippingCost', 'taxAmount']) — an array argument, so the
guard is false in every state (changedArrayOfNames) and the recompute of
totalPrice in the hook body is dead code. Returns the quote together
with the changed set extended by totalPrice when the hook writes it. -/
def quoteHookTotal (q : QuoteRec) (changed : List String) :
    QuoteRec × List String :=
  if changedArrayOfNames changed
      ["basePrice", "materialCost", "laborCost", "shippingCost",
        "taxAmount"] then
    ({ q with
        totalPrice :=
          some (jsOr (some q.basePrice) 0 + jsOr q.materialCost 0 +
            jsOr q.laborCost 0 + jsOr q.shippingCost 0 +
            jsOr q.taxAmount 0) },
     "totalPrice" :: changed)
  else
    (q, changed)

/-- Second Quote.beforeSave hook (src/server/models/Quote.js, lines
141-147): guarded by quote.changed(['totalPrice', 'pricingFactor']) —
again an array argument, so the guard is false in every state and the
recompute of adjustedPrice is dead code. -/
def quoteHookAdjusted (q : QuoteRec) (changed : List String) : QuoteRec :=
  if changedArrayOfNames changed ["totalPrice", "pricingFactor"] then
    { q with
        adjustedPrice := some (jsOr q.totalPrice 0 *
          jsOr q.pricingFactor 1) }
  else
    q

/-- Both beforeSave hooks in registration order, as run by a create or an
update of a Quote instance with the given changed-attribute set. -/
def quoteBeforeSave (q : QuoteRec) (changed : List String) : QuoteRec :=
  let (q1, changed1) := quoteHookTotal q changed
  quoteHookAdjusted q1 changed1

/-- Body of a quote create or update request: the cost components the
caller supplied (validated as decimals; absent fields are undefined),
plus the auxiliary fields. -/
structure QuoteBody where
  basePrice : Option ℚ
  materialCost : Option ℚ
  laborCost : Option ℚ
  shippingCost : Option ℚ
  taxAmount : Option ℚ
  productionTime : Option Nat
  shippingTime : Option Nat
  notes : Option String
deriving DecidableEq, Repr

/-- Names of the cost fields the caller supplied, i.e. the attributes a
quote update marks changed among the price-affecting ones. -/
def providedCostFields (b : QuoteBody) : List String :=
  (if b.basePrice.isSome then ["basePrice"] else []) ++
  (if b.materialCost.isSome then ["materialCost"] else []) ++
  (if b.laborCost.isSome then ["laborCost"] else []) ++
  (if b.shippingCost.isSome then ["shippingCost"] else []) ++
  (if b.taxAmount.isSome then ["taxAmount"] else [])

/-- Outcome of the create-quote route. createFailed is the catch-all
500 response the route returns when Quote.create throws. -/
inductive CreateQuoteResult
  | orderNotFound
  | accessDenied
  | wrongOrderStatus
  | createFailed
  | created (q : QuoteRec) (o : OrderRec)
deriving DecidableEq, Repr

/-- The notNull validation Sequelize runs on save, before the save
hooks: quotes.totalPrice is a NOT NULL column with no default, so an
instance whose totalPrice attribute is unset fails validation and the
save throws. -/
def quoteNotNullOk (q : QuoteRec) : Bool :=
  q.totalPrice.isSome

/-- The create-quote route (src/unnamed/part_000, lines 349-451) after
authentication and the supplier-or-admin role gate: resolve the order;
403 for a supplier who is not the order's supplier; 400 unless the order
is in quote_asked; resolve the pricing factor from the order's
supplier/category/material/urgency and the basePrice as order value;
build the quote (cost components defaulting to 0, factor from the rule
or 1.0, a 30-day validUntil, no status so the model default 'draft'
would apply, and no totalPrice — quoteData omits it). Quote.create then
validates before the save hooks run; totalPrice is unset and NOT NULL,
the hooks that would compute it are dead anyway (array-argument changed
guard), so validation fails, the route answers the 500 createFailed and
order.update({status: 'quote_sent'}) is never reached. The create-quote
body requires basePrice, so it is passed separately. -/
def createQuoteRoute (user : UserRec) (order : Option OrderRec)
    (rules : List PricingFactorRow) (basePrice : ℚ) (b : QuoteBody)
    (now : Int) (quoteId : String) : CreateQuoteResult :=
  match order with
  | none => .orderNotFound
  | some o =>
      if user.role = .supplier ∧ o.supplierId ≠ user.id then
        .accessDenied
      else if o.status ≠ .quote_asked then
        .wrongOrderStatus
      else
        let rule := getApplicableFactor rules now o.supplierId
          o.prosthesisType o.material o.urgency basePrice
        let q0 : QuoteRec :=
          { id := quoteId
            orderId := o.id
            supplierId := o.supplierId
            status := .draft
            basePrice := basePrice
            materialCost := some (b.materialCost.getD 0)
            laborCost := some (b.laborCost.getD 0)
            shippingCost := some (b.shippingCost.getD 0)
            taxAmount := some (b.taxAmount.getD 0)
            totalPrice := none
            adjustedPrice := none
            pricingFactor := some (match rule with
              | some f => f.factor
              | none => 1)
            validUntil := some (now + 30 * dayMs)
            productionTime := b.productionTime
            shippingTime := b.shippingTime
            notes := b.notes
            revisionNumber := 1
            acceptedAt := none
            acceptedBy := none
            rejectionReason := none }
        if quoteNotNullOk q0 then
          let q := quoteBeforeSave q0
            ["orderId", "supplierId", "basePrice", "materialCost",
             "laborCost", "shippingCost", "taxAmount", "productionTime",
             "shippingTime", "notes", "specifications", "pricingFactor",
             "validUntil"]
          .created q { o with status := .quote_sent }
        else
          .createFailed

/-- Outcome of the update-quote route. -/
inductive UpdateQuoteResult
  | quoteNotFound
  | accessDenied
  | cannotUpdateAccepted
  | ok (q : QuoteRec)
deriving DecidableEq, Repr

/-- The update-quote route (src/unnamed/part_000, lines 509-601) after
authentication and the supplier-or-admin role gate: 403 for a supplier
who does not own the quote; 400 when the quote is accepted; otherwise
apply the supplied cost and auxiliary fields, bump revisionNumber, force
status to 'modified', and run the beforeSave hooks with the assigned
attributes changed. The hooks' array-argument changed guard never
fires, so totalPrice and adjustedPrice keep their stored (now stale)
values; the route loads the quote from the database, whose NOT NULL
totalPrice is necessarily set, so validation passes and the update
succeeds. -/
def updateQuoteRoute (user : UserRec) (q : QuoteRec) (b : QuoteBody) :
    UpdateQuoteResult :=
  if user.role = .supplier ∧ q.supplierId ≠ user.id then
    .accessDenied
  else if q.status = .accepted then
    .cannotUpdateAccepted
  else
    let q1 : QuoteRec :=
      { q with
          basePrice := b.basePrice.getD q.basePrice
          materialCost := match b.materialCost with
            | some v => some v
            | none => q.materialCost
          laborCost := match b.laborCost with
            | some v => some v
            | none => q.laborCost
          shippingCost := match b.shippingCost with
            | some v => some v
            | none => q.shippingCost
          taxAmount := match b.taxAmount with
            | some v => some v
            | none => q.taxAmount
          productionTime := match b.productionTime with
            | some v => some v
            | none => q.productionTime
          shippingTime := match b.shippingTime with
            | some v => some v
            | none => q.shippingTime
          notes := match b.notes with
            | some v => some v
            | none => q.notes
          revisionNumber := q.revisionNumber + 1
          status := .modified }
    .ok (quoteBeforeSave q1
      (providedCostFields b ++ ["revisionNumber", "status"]))

/-- Outcome of the accept-quote and reject-quote routes. -/
inductive DecisionOutcome
  | onlyDentists
  | accessDenied
  | invalidState
  | done (q : QuoteRec) (o : OrderRec)
deriving DecidableEq, Repr

/-- The accept-quote route (src/unnamed/part_000, lines 604-678): 403
unless the requester is a dentist or admin; 403 for a dentist who is not
the parent order's dentist; 400 unless the quote status is sent or
modified; otherwise mark the quote accepted with acceptedAt/acceptedBy
(a save whose changed set triggers neither pricing hook) and update the
parent order to quote_validated, copying totalPrice, adjustedPrice and
pricingFactor onto originalQuote, adjustedQuote and pricingFactor. -/
def acceptQuote (user : UserRec) (q : QuoteRec) (o : OrderRec)
    (now : Int) : DecisionOutcome :=
  if user.role ≠ .dentist ∧ user.role ≠ .admin then
    .onlyDentists
  else if user.role = .dentist ∧ o.dentistId ≠ user.id then
    .accessDenied
  else if q.status ≠ .sent ∧ q.status ≠ .modified then
    .invalidState
  else
    let q' := quoteBeforeSave
      { q with
          status := .accepted
          acceptedAt := some now
          acceptedBy := some user.id }
      ["status", "acceptedAt", "acceptedBy"]
    .done q'
      { o with
          status := .quote_validated
          originalQuote := q'.totalPrice
          adjustedQuote := q'.adjustedPrice
          pricingFactor := q'.pricingFactor }

/-- The reject-quote route (src/unnamed/part_000, lines 681-751): the
same actor and state gates as accept; on success mark the quote rejected
with the optional reason and reset the parent order to quote_asked. -/
def rejectQuote (user : UserRec) (q : QuoteRec) (o : OrderRec)
    (reason : Option String) : DecisionOutcome :=
  if user.role ≠ .dentist ∧ user.role ≠ .admin then
    .onlyDentists
  else if user.role = .dentist ∧ o.dentistId ≠ user.id then
    .accessDenied
  else if q.status ≠ .sent ∧ q.status ≠ .modified then
    .invalidState
  else
    let q' := quoteBeforeSave
      { q with status := .rejected, rejectionReason := reason }
      ["status", "rejectionReason"]
    .done q' { o with status := .quote_asked }

/-- Body of a PUT /:id order-details request: the twelve allowed fields,
each present or absent (the route copies a field when it is not
undefined, with no truthiness filter). -/
structure DetailsBody where
  title : Option String
  description : Option String
  patientName : Option String
  patientAge : Option Nat
  patientGender : Option String
  toothNumbers : Option (List Nat)
  prosthesisType : Option String
  material : Option String
  color : Option String
  urgency : Option String
  expectedDelivery : Option Int
  notes : Option String
deriving DecidableEq, Repr

/-- Outcome of the update-order-details route: success, or the 400
response `Cannot update order that is in production or beyond`. -/
inductive DetailsOutcome
  | ok
  | orderLocked
deriving DecidableEq, Repr

/-- Apply the supplied detail fields to the order. -/
def applyDetailsBody (o : OrderRec) (b : DetailsBody) : OrderRec :=
  { o with
      title := b.title.getD o.title
      description := match b.description with
        | some v => some v
        | none => o.description
      patientName := match b.patientName with
        | some v => some v
        | none => o.patientName
      patientAge := match b.patientAge with
        | some v => some v
        | none => o.patientAge
      patientGender := match b.patientGender with
        | some v => some v
        | none => o.patientGender
      toothNumbers := b.toothNumbers.getD o.toothNumbers
      prosthesisType := b.prosthesisType.getD o.prosthesisType
      material := b.material.getD o.material
      color := match b.color with
        | some v => some v
        | none => o.color
      urgency := b.urgency.getD o.urgency
      expectedDelivery := match b.expectedDelivery with
        | some v => some v
        | none => o.expectedDelivery
      notes := match b.notes with
        | some v => some v
        | none => o.notes }

/-- The update-order-details route (src/unnamed/part_000, lines 234-294)
after authentication, the dentist-or-admin gate and access control:
reject with the production lock when the order status is in_production,
in_shipping or delivered; otherwise apply the supplied allowed fields.
The first component is the stored order after the request. -/
def updateOrderDetailsRoute (o : OrderRec) (b : DetailsBody) :
    OrderRec × DetailsOutcome :=
  if o.status = .in_production ∨ o.status = .in_shipping ∨
      o.status = .delivered then
    (o, .orderLocked)
  else
    (applyDetailsBody o b, .ok)

/-- The claim's reading of "strictly before in_production" along the §4.3
chain quote_asked → quote_sent → quote_validated → in_production →
in_shipping → delivered: exactly the three statuses preceding
in_production (cancelled sits outside the chain). -/
def strictlyBeforeInProduction (s : OrderStatus) : Bool :=
  s == .quote_asked || s == .quote_sent || s == .quote_validated

/-- The access predicate of the canAccessOrder middleware
(src/server/middleware/auth.js, lines 78-96) once the order is resolved:
admin, or the order's dentist, or the order's assigned supplier. -/
def canAccessOrderCheck (user : UserRec) (o : OrderRec) : Bool :=
  user.role == .admin ||
  (user.role == .dentist && o.dentistId == user.id) ||
  (user.role == .supplier && o.supplierId == user.id)

/-- Route parameters as Express binds them: each named parameter is
present or absent depending on the route pattern. -/
structure Params where
  id : Option String
  orderId : Option String
deriving DecidableEq, Repr

/-- Outcome of the canAccessOrder middleware. -/
inductive AccessOutcome
  | notFound
  | forbidden
  | pass (o : OrderRec)
deriving DecidableEq, Repr

/-- Whether a middleware outcome is the 403 Forbidden response. -/
def isForbidden : AccessOutcome → Bool
  | .forbidden => true
  | _ => false

/-- Look up an order by primary key; findByPk of a missing (undefined)
key resolves to null. -/
def findOrderByPk (db : List (String × OrderRec)) :
    Option String → Option OrderRec
  | none => none
  | some k =>
      match db.find? (fun p => p.1 == k) with
      | some p => some p.2
      | none => none

/-- The canAccessOrder middleware (src/server/middleware/auth.js, lines
62-100): destructure orderId from req.params, findByPk it (null when the
parameter is absent), respond 404 `Order not found` when no order
resolves, pass admins, the order's dentist and the order's supplier, and
respond 403 otherwise. -/
def canAccessOrderMW (user : UserRec) (params : Params)
    (db : List (String × OrderRec)) : AccessOutcome :=
  match findOrderByPk db params.orderId with
  | none => .notFound
  | some o =>
      if canAccessOrderCheck user o then .pass o else .forbidden

/-- Parameters bound by the three order routes GET /:id, PUT /:id/status
and PUT /:id (src/unnamed/part_000, lines 127, 160 and 234): the value is
bound to the parameter named id; no parameter named orderId exists. -/
def orderRouteParams (v : String) : Params :=
  { id := some v, orderId := none }

/-- Parameters bound by the quote, chat-message and file routes of the
form .../order/:orderId: the value is bound to the parameter named
orderId. -/
def orderScopedParams (v : String) : Params :=
  { id := none, orderId := some v }

/-- Outcome of the per-route access check of GET /quotes/:id. -/
inductive QuoteAccessOutcome
  | notFound
  | forbidden
  | allowed
deriving DecidableEq, Repr

/-- The per-route access check of the get-quote-by-id route
(src/unnamed/part_000, lines 472-506): 404 when the quote does not
resolve; 403 for a dentist who is not the parent order's dentist and for
a supplier who is not the parent order's supplier; otherwise allowed. -/
def getQuoteByIdAccess (user : UserRec)
    (found : Option (QuoteRec × OrderRec)) : QuoteAccessOutcome :=
  match found with
  | none => .notFound
  | some (_, o) =>
      if user.role = .dentist ∧ o.dentistId ≠ user.id then .forbidden
      else if user.role = .supplier ∧ o.supplierId ≠ user.id then .forbidden
      else .allowed

/-- The slice of a chat_messages row the mark-read route touches. -/
structure MessageRec where
  id : Nat
  orderId : String
  userId : Nat
  isRead : Bool
  readAt : Option Int
deriving DecidableEq, Repr

/-- The mark-messages-read route (src/unnamed/part_002, lines 127-145)
after authentication and access control: a bulk UPDATE setting isRead and
readAt on the rows whose orderId is the route's order, whose author is
not the requester, and which are still unread. -/
def markRead (msgs : List MessageRec) (orderId : String) (readerId : Nat)
    (now : Int) : List MessageRec :=
  msgs.map fun m =>
    if m.orderId == orderId && m.userId != readerId && m.isRead == false then
      { m with isRead := true, readAt := some now }
    else
      m

/-- Placeholder quote used only as the unreachable fallback of the
scenario extraction definitions below. -/
def dummyQuote : QuoteRec :=
  { id := "", orderId := "", supplierId := 0, status := .draft
    basePrice := 0, materialCost := none, laborCost := none
    shippingCost := none, taxAmount := none, totalPrice := none
    adjustedPrice := none, pricingFactor := none, validUntil := none
    productionTime := none, shippingTime := none, notes := none
    revisionNumber := 0, acceptedAt := none, acceptedBy := none
    rejectionReason := none }

/-- Placeholder order used only as the unreachable fallback of the
scenario extraction definitions below. -/
def dummyOrder : OrderRec :=
  { id := "", dentistId := 0, supplierId := 0, status := .quote_asked
    title := "", description := none, patientName := none
    patientAge := none, patientGender := none, toothNumbers := []
    prosthesisType := "other", material := "other", color := none
    urgency := "medium", expectedDelivery := none, actualDelivery := none
    originalQuote := none, adjustedQuote := none, pricingFactor := none
    notes := none, trackingNumber := none, shippingCompany := none }

/-- The dentist who owns the scenario order. -/
def dentistU : UserRec := { id := 10, role := .dentist }

/-- The supplier assigned to the scenario order. -/
def supplierU : UserRec := { id := 20, role := .supplier }

/-- An administrator. -/
def adminU : UserRec := { id := 1, role := .admin }

/-- A supplier who is not assigned to the scenario order. -/
def otherSupplierU : UserRec := { id := 99, role := .supplier }

/-- Scenario A's only pricing rule: an active default rule with factor
1.5 and all scopes at the 'general' wildcard. -/
def defaultRule15 : PricingFactorRow :=
  { id := 1, supplierId := none, isDefault := true, factor := 1.5
    validFrom := 0, validUntil := none, category := "general"
    material := "general", urgency := "general", minOrderValue := none
    maxOrderValue := none, isActive := true, createdAt := 0 }

/-- Scenario A's order: created by the dentist with prosthesisType crown
and material ceramic, awaiting a quote. -/
def scenarioAOrder : OrderRec :=
  { id := "ord1", dentistId := 10, supplierId := 20
    status := .quote_asked, title := "Crown order", description := none
    patientName := none, patientAge := none, patientGender := none
    toothNumbers := [11], prosthesisType := "crown", material := "ceramic"
    color := none, urgency := "medium", expectedDelivery := none
    actualDelivery := none, originalQuote := none, adjustedQuote := none
    pricingFactor := some 1, notes := none, trackingNumber := none
    shippingCompany := none }

/-- A quote body carrying no optional fields. -/
def emptyQuoteBody : QuoteBody :=
  { basePrice := none, materialCost := none, laborCost := none
    shippingCost := none, taxAmount := none, productionTime := none
    shippingTime := none, notes := none }

/-- A stored quotes row for the scenario order: the quote scenario A
intends, in status sent with totalPrice 100, adjustedPrice 150 and
pricingFactor 1.5 (a stored row necessarily carries a totalPrice, the
column being NOT NULL). -/
def storedQuote : QuoteRec :=
  { id := "q1", orderId := "ord1", supplierId := 20, status := .sent
    basePrice := 100, materialCost := some 0, laborCost := some 0
    shippingCost := some 0, taxAmount := some 0, totalPrice := some 100
    adjustedPrice := some 150, pricingFactor := some 1.5
    validUntil := none, productionTime := none, shippingTime := none
    notes := none, revisionNumber := 1, acceptedAt := none
    acceptedBy := none, rejectionReason := none }

/-- The same stored quote in the draft status. -/
def draftQuote : QuoteRec := { storedQuote with status := .draft }

/-- The scenario order once a quote has been sent. -/
def quoteSentOrder : OrderRec :=
  { scenarioAOrder with status := .quote_sent }

/-- A quote-update body changing basePrice to 40. -/
def baseUpdateBody : QuoteBody :=
  { basePrice := some 40, materialCost := none, laborCost := none
    shippingCost := none, taxAmount := none, productionTime := none
    shippingTime := none, notes := none }

/-- The stored quote after the basePrice update. -/
def staleUpdateQuote : QuoteRec :=
  match updateQuoteRoute supplierU storedQuote baseUpdateBody with
  | .ok q => q
  | _ => dummyQuote

/-- The dentist's accept of the stored (sent) quote. -/
def acceptStored : DecisionOutcome :=
  acceptQuote dentistU storedQuote quoteSentOrder 3000

/-- The quote after the accept of the stored quote. -/
def acceptedQuote : QuoteRec :=
  match acceptStored with
  | .done q _ => q
  | _ => dummyQuote

/-- The order after the accept of the stored quote. -/
def acceptedOrder : OrderRec :=
  match acceptStored with
  | .done _ o => o
  | _ => dummyOrder

/-- The draft quote after a supplier revision with no field changes
(the update route still bumps the revision and forces status
'modified'). -/
def draftRevisedQuote : QuoteRec :=
  match updateQuoteRoute supplierU draftQuote emptyQuoteBody with
  | .ok q => q
  | _ => dummyQuote

/-- A detail-edit body changing only the title. -/
def titleBody : DetailsBody :=
  { title := some "New title", description := none, patientName := none
    patientAge := none, patientGender := none, toothNumbers := none
    prosthesisType := none, material := none, color := none
    urgency := none, expectedDelivery := none, notes := none }

/-- The scenario A order once it has reached in_production. -/
def inProdOrder : OrderRec := { scenarioAOrder with status := .in_production }

/-- The scenario A order once it has been cancelled. -/
def cancelledOrder : OrderRec := { scenarioAOrder with status := .cancelled }

/-- A one-order database keyed by the scenario order's primary key. -/
def ordersDb : List (String × OrderRec) := [("ord1", scenarioAOrder)]

/-- A supplier-scoped rule for supplier 20 with the specific category
crown, created at time 0. -/
def crownRule : PricingFactorRow :=
  { id := 2, supplierId := some 20, isDefault := false, factor := 2
    validFrom := 0, validUntil := none, category := "crown"
    material := "general", urgency := "general", minOrderValue := none
    maxOrderValue := none, isActive := true, createdAt := 0 }

/-- A supplier-scoped rule for supplier 20 with the wildcard category
'general', created later (time 5) than the crown rule. -/
def generalRule : PricingFactorRow :=
  { id := 3, supplierId := some 20, isDefault := false, factor := 3
    validFrom := 0, validUntil := none, category := "general"
    material := "general", urgency := "general", minOrderValue := none
    maxOrderValue := none, isActive := true, createdAt := 5 }

section Theorems

/-! Helper lemmas shared by several claim theorems. -/

/-- Because the hooks' array-argument changed guard is false in every
state, the beforeSave hooks never modify the instance. -/
theorem quoteBeforeSave_eq_id (q : QuoteRec) (changed : List String) :
    quoteBeforeSave q changed = q := rfl

/-- The route's validTransitions table recognises exactly the edges of
the claimed graph. -/
theorem validTransitions_eq_specEdge :
    ∀ f t : OrderStatus, (validTransitions f).contains t = specEdge f t := by
  decide

/-- A successful status update stores the requested status, and that
step is an edge of the claimed graph. -/
theorem updateOrderStatusRoute_ok_edge (now : Int) (o : OrderRec)
    (b : StatusBody) (o' : OrderRec)
    (h : updateOrderStatusRoute now o b = (o', .ok)) :
    o'.status = b.status ∧ specEdge o.status b.status = true := by
  by_cases hc : (validTransitions o.status).contains b.status = true
  · rw [updateOrderStatusRoute, if_pos hc] at h
    injection h with h1 h2
    refine ⟨?_, by rw [← validTransitions_eq_specEdge]; exact hc⟩
    rw [← h1]
  · rw [updateOrderStatusRoute, if_neg hc] at h
    exact StatusOutcome.noConfusion (congrArg Prod.snd h)

/-- Replaying any list of status-update requests yields a status
sequence that chains along the claimed graph. -/
theorem observedStatuses_chain (now : Int) :
    ∀ (bs : List StatusBody) (o : OrderRec),
      List.Chain (fun a c => specEdge a c = true) o.status
        (observedStatuses now o bs) := by
  intro bs
  induction bs with
  | nil => intro o; exact List.Chain.nil
  | cons b rest ih =>
      intro o
      cases h : updateOrderStatusRoute now o b with
      | mk o' out =>
          cases out with
          | ok =>
              have he := updateOrderStatusRoute_ok_edge now o b o' h
              simp only [observedStatuses, h]
              exact List.Chain.cons (he.1 ▸ he.2) (ih o')
          | invalidTransition f t =>
              simp only [observedStatuses, h]
              exact ih o

/-- C2: a status-update request succeeds exactly when the requested
status is a successor of the current status in the fixed graph
quote_asked → quote_sent → quote_validated → in_production → in_shipping
→ delivered with cancelled reachable from every non-terminal state and
delivered/cancelled terminal; any other pair is rejected with an
InvalidTransition error reporting the offending from/to statuses and
leaving the order unchanged, so every observed status sequence is a path
through this graph. -/
theorem order_status_transitions_follow_graph :
    (∀ (now : Int) (o : OrderRec) (b : StatusBody),
      ((updateOrderStatusRoute now o b).2 = .ok ∧
        (updateOrderStatusRoute now o b).1.status = b.status ∧
        specEdge o.status b.status = true) ∨
      ((updateOrderStatusRoute now o b).2 =
          .invalidTransition o.status b.status ∧
        (updateOrderStatusRoute now o b).1 = o ∧
        specEdge o.status b.status = false)) ∧
    (∀ (now : Int) (o : OrderRec) (bs : List StatusBody),
      List.Chain (fun a c => specEdge a c = true) o.status
        (observedStatuses now o bs)) := by
  constructor
  · intro now o b
    by_cases hc : (validTransitions o.status).contains b.status = true
    · left
      rw [updateOrderStatusRoute, if_pos hc]
      refine ⟨rfl, rfl, ?_⟩
      rw [← validTransitions_eq_specEdge]
      exact hc
    · right
      rw [updateOrderStatusRoute, if_neg hc]
      refine ⟨rfl, rfl, ?_⟩
      rw [← validTransitions_eq_specEdge]
      simpa using hc
  · exact fun now o bs => observedStatuses_chain now bs o

/-- C1: evaluation of getApplicableFactor at the claim's own example.
Both the supplier-scoped category=crown rule and the supplier-scoped
category=general rule match a crown/ceramic/medium order of value 100,
and the general rule was created later; the resolver nevertheless
returns the category=general rule, because the ORDER BY sorts the
category enum DESC and 'general' is the last declared enum label, so
'general' sorts first. This contradicts the claimed specificity-first
tie break (and the source's own comment "Prefer specific category over
general" at PricingFactor.js line 157). -/
theorem getApplicableFactor_picks_general_not_crown :
    matchesSupplierRule 10 20 "crown" "ceramic" "medium" 100 crownRule
        = true ∧
    matchesSupplierRule 10 20 "crown" "ceramic" "medium" 100 generalRule
        = true ∧
    crownRule.createdAt < generalRule.createdAt ∧
    getApplicableFactor [crownRule, generalRule] 10 20 "crown" "ceramic"
        "medium" 100 = some generalRule ∧
    generalRule.factor = 3 ∧ crownRule.factor = 2 := by
  refine ⟨by decide, by decide, by decide, ?_, by norm_num [generalRule],
    by norm_num [crownRule]⟩
  simp +decide [getApplicableFactor, pfFindOne, matchesSupplierRule,
    pfPrecedes, crownRule, generalRule, categoryEnumOrd, materialEnumOrd,
    urgencyEnumOrd]

/-- C3: evaluation of the faithful embedding at the failing inputs.
The hooks' guard quote.changed([...]) passes an array where Sequelize
expects a single string key, so it is false in every state and the
hooks never fire: updating basePrice from 100 to 40 on a stored quote
succeeds but leaves totalPrice at the stale 100 and adjustedPrice at
the stale 150 instead of the recomputed sum 40 the claim requires, and
the create path, which never sets the NOT NULL totalPrice, always fails
instead of storing a quote with a recomputed total (scenario A's create
shown as the instance). -/
theorem quote_derived_fields_not_recomputed :
    changedArrayOfNames ["basePrice", "revisionNumber", "status"]
        ["basePrice", "materialCost", "laborCost", "shippingCost",
          "taxAmount"] = false ∧
    updateQuoteRoute supplierU storedQuote baseUpdateBody =
      .ok staleUpdateQuote ∧
    staleUpdateQuote.basePrice = 40 ∧
    staleUpdateQuote.totalPrice = some 100 ∧
    staleUpdateQuote.basePrice + staleUpdateQuote.materialCost.getD 0 +
      staleUpdateQuote.laborCost.getD 0 +
      staleUpdateQuote.shippingCost.getD 0 +
      staleUpdateQuote.taxAmount.getD 0 = 40 ∧
    staleUpdateQuote.adjustedPrice = some 150 ∧
    createQuoteRoute supplierU (some scenarioAOrder) [defaultRule15] 100
      emptyQuoteBody 1000 "q1" = .createFailed := by
  refine ⟨rfl, rfl, rfl, rfl, ?_, rfl, rfl⟩
  have hb : staleUpdateQuote.basePrice = (40 : ℚ) := rfl
  have hm : staleUpdateQuote.materialCost = some (0 : ℚ) := rfl
  have hl : staleUpdateQuote.laborCost = some (0 : ℚ) := rfl
  have hs : staleUpdateQuote.shippingCost = some (0 : ℚ) := rfl
  have ht : staleUpdateQuote.taxAmount = some (0 : ℚ) := rfl
  rw [hb, hm, hl, hs, ht]
  norm_num

/-- C4 counterexample: scenario A stores no quote at all — its create
fails validation on the never-assigned NOT NULL totalPrice — so the
claim's scenario-B accept has no quote to act on; and a quote in the
draft status (the status the create path would leave, were a quote
stored) cannot be accepted either. -/
theorem quote_accept_scenarioB_counterexample :
    createQuoteRoute supplierU (some scenarioAOrder) [defaultRule15] 100
      emptyQuoteBody 1000 "q1" = .createFailed ∧
    draftQuote.status = .draft ∧
    dentistU.role = .dentist ∧
    quoteSentOrder.dentistId = dentistU.id ∧
    acceptQuote dentistU draftQuote quoteSentOrder 2000 =
      .invalidState := ⟨rfl, rfl, rfl, rfl, rfl⟩

/-- A successful accept implies the actor and state gates were met and
describes every field the route writes. -/
theorem acceptQuote_done_facts (u : UserRec) (q : QuoteRec) (o : OrderRec)
    (now : Int) (q' : QuoteRec) (o' : OrderRec)
    (h : acceptQuote u q o now = .done q' o') :
    (u.role = .dentist ∨ u.role = .admin) ∧
    (u.role = .dentist → o.dentistId = u.id) ∧
    (q.status = .sent ∨ q.status = .modified) ∧
    q'.status = .accepted ∧ q'.acceptedAt = some now ∧
    q'.acceptedBy = some u.id ∧ o'.status = .quote_validated ∧
    o'.originalQuote = q.totalPrice ∧
    o'.adjustedQuote = q.adjustedPrice ∧
    o'.pricingFactor = q.pricingFactor := by
  rw [acceptQuote] at h
  by_cases h1 : u.role ≠ .dentist ∧ u.role ≠ .admin
  · rw [if_pos h1] at h
    exact DecisionOutcome.noConfusion h
  · rw [if_neg h1] at h
    by_cases h2 : u.role = .dentist ∧ o.dentistId ≠ u.id
    · rw [if_pos h2] at h
      exact DecisionOutcome.noConfusion h
    · rw [if_neg h2] at h
      by_cases h3 : q.status ≠ .sent ∧ q.status ≠ .modified
      · rw [if_pos h3] at h
        exact DecisionOutcome.noConfusion h
      · rw [if_neg h3] at h
        rw [quoteBeforeSave_eq_id] at h
        injection h with hq ho
        refine ⟨?_, ?_, ?_, ?_⟩
        · rcases not_and_or.mp h1 with h | h
          · exact Or.inl (not_not.mp h)
          · exact Or.inr (not_not.mp h)
        · intro hd
          by_contra hne
          exact h2 ⟨hd, hne⟩
        · rcases not_and_or.mp h3 with h | h
          · exact Or.inl (not_not.mp h)
          · exact Or.inr (not_not.mp h)
        · rw [← hq, ← ho]
          exact ⟨rfl, rfl, rfl, rfl, rfl, rfl, rfl⟩

/-- When the actor and state gates are met, accept succeeds. -/
theorem acceptQuote_succeeds (u : UserRec) (q : QuoteRec) (o : OrderRec)
    (now : Int) (hrole : u.role = .dentist ∨ u.role = .admin)
    (howner : u.role = .dentist → o.dentistId = u.id)
    (hstatus : q.status = .sent ∨ q.status = .modified) :
    ∃ (q' : QuoteRec) (o' : OrderRec),
      acceptQuote u q o now = .done q' o' := by
  rw [acceptQuote]
  rw [if_neg (by rcases hrole with h | h <;> simp [h])]
  rw [if_neg (by intro hc; exact hc.2 (howner hc.1))]
  rw [if_neg (by rcases hstatus with h | h <;> simp [h])]
  exact ⟨_, _, rfl⟩

/-- A successful reject requires the quote to have been sent or
modified. -/
theorem rejectQuote_done_status (u : UserRec) (q : QuoteRec) (o : OrderRec)
    (reason : Option String) (q' : QuoteRec) (o' : OrderRec)
    (h : rejectQuote u q o reason = .done q' o') :
    q.status = .sent ∨ q.status = .modified := by
  rw [rejectQuote] at h
  by_cases h1 : u.role ≠ .dentist ∧ u.role ≠ .admin
  · rw [if_pos h1] at h
    exact DecisionOutcome.noConfusion h
  · rw [if_neg h1] at h
    by_cases h2 : u.role = .dentist ∧ o.dentistId ≠ u.id
    · rw [if_pos h2] at h
      exact DecisionOutcome.noConfusion h
    · rw [if_neg h2] at h
      by_cases h3 : q.status ≠ .sent ∧ q.status ≠ .modified
      · rw [if_pos h3] at h
        exact DecisionOutcome.noConfusion h
      · rcases not_and_or.mp h3 with h | h
        · exact Or.inl (not_not.mp h)
        · exact Or.inr (not_not.mp h)

/-- C4 (amended): accepting a quote succeeds only when the requester is
the parent order's dentist or an admin and the quote status is sent or
modified, fails otherwise, and on success stamps the quote accepted and
copies totalPrice/adjustedPrice/pricingFactor onto the parent order,
moving it to quote_validated. Scenario B as the claim states it cannot
occur, because scenario A's create stores no quote (see C5); for a
stored quote in status sent with totalPrice 100, adjustedPrice 150 and
pricingFactor 1.5, the dentist's accept yields quote accepted, order
quote_validated, adjustedQuote 150 and pricingFactor 1.5. -/
theorem quote_accept_contract :
    (∀ (u : UserRec) (q : QuoteRec) (o : OrderRec) (now : Int)
        (q' : QuoteRec) (o' : OrderRec),
      acceptQuote u q o now = .done q' o' →
        (u.role = .dentist ∨ u.role = .admin) ∧
        (u.role = .dentist → o.dentistId = u.id) ∧
        (q.status = .sent ∨ q.status = .modified) ∧
        q'.status = .accepted ∧ q'.acceptedAt = some now ∧
        q'.acceptedBy = some u.id ∧ o'.status = .quote_validated ∧
        o'.originalQuote = q.totalPrice ∧
        o'.adjustedQuote = q.adjustedPrice ∧
        o'.pricingFactor = q.pricingFactor) ∧
    (∀ (u : UserRec) (q : QuoteRec) (o : OrderRec) (now : Int),
      ¬((u.role = .dentist ∨ u.role = .admin) ∧
          (u.role = .dentist → o.dentistId = u.id) ∧
          (q.status = .sent ∨ q.status = .modified)) →
        ∀ (q' : QuoteRec) (o' : OrderRec),
          acceptQuote u q o now ≠ .done q' o') ∧
    (∀ (u : UserRec) (q : QuoteRec) (o : OrderRec) (now : Int),
      (u.role = .dentist ∨ u.role = .admin) →
      (u.role = .dentist → o.dentistId = u.id) →
      (q.status = .sent ∨ q.status = .modified) →
        ∃ (q' : QuoteRec) (o' : OrderRec),
          acceptQuote u q o now = .done q' o') ∧
    (storedQuote.status = .sent ∧
      acceptQuote dentistU storedQuote quoteSentOrder 3000 =
        .done acceptedQuote acceptedOrder ∧
      acceptedQuote.status = .accepted ∧
      acceptedOrder.status = .quote_validated ∧
      acceptedOrder.originalQuote = some 100 ∧
      acceptedOrder.adjustedQuote = some 150 ∧
      acceptedOrder.pricingFactor = some 1.5) := by
  refine ⟨acceptQuote_done_facts, ?_, acceptQuote_succeeds, rfl, rfl, rfl,
    rfl, rfl, rfl, rfl⟩
  intro u q o now hno q' o' hdone
  exact hno ((acceptQuote_done_facts u q o now q' o' hdone).1.elim
    (fun h => ⟨Or.inl h, (acceptQuote_done_facts u q o now q' o' hdone).2.1,
      (acceptQuote_done_facts u q o now q' o' hdone).2.2.1⟩)
    (fun h => ⟨Or.inr h, (acceptQuote_done_facts u q o now q' o' hdone).2.1,
      (acceptQuote_done_facts u q o now q' o' hdone).2.2.1⟩))

/-- Witness for C4: the dentist's accept of the stored (sent) quote is
a concrete successful run of the accept contract. -/
theorem quote_accept_contract_witness :
    (dentistU.role = .dentist ∨ dentistU.role = .admin) ∧
    storedQuote.status = .sent ∧
    ∃ (q' : QuoteRec) (o' : OrderRec),
      acceptQuote dentistU storedQuote quoteSentOrder 3000 =
        .done q' o' :=
  ⟨Or.inl rfl, rfl,
    quote_accept_contract.2.2.1 dentistU storedQuote quoteSentOrder 3000
      (Or.inl rfl) (fun _ => rfl) (Or.inl rfl)⟩

/-- C5: evaluation of scenario A on the faithful embedding. The create
request passes the access gate (the requester is the assigned supplier)
and the status gate (the order is in quote_asked), but Quote.create
omits the NOT NULL totalPrice, the hooks that would compute it never
fire (array-argument changed guard), validation fails before anything
is stored, the route answers 500 and order.update({status:
'quote_sent'}) is never reached — the claimed total-100/factor-1.5/
adjustedPrice-150 quote and the quote_sent transition never happen. -/
theorem scenarioA_quote_creation_fails :
    supplierU.role = .supplier ∧
    supplierU.id = scenarioAOrder.supplierId ∧
    scenarioAOrder.status = .quote_asked ∧
    createQuoteRoute supplierU (some scenarioAOrder) [defaultRule15] 100
      emptyQuoteBody 1000 "q1" = .createFailed :=
  ⟨rfl, rfl, rfl, rfl⟩

/-- C6 counterexample: editing the title of a cancelled order succeeds,
yet cancelled is not strictly before in_production on the §4.3 chain, so
detail edits are not permitted only while the status is strictly before
in_production. -/
theorem detail_edit_cancelled_counterexample :
    cancelledOrder.status = .cancelled ∧
    strictlyBeforeInProduction .cancelled = false ∧
    (updateOrderDetailsRoute cancelledOrder titleBody).2 = .ok ∧
    (updateOrderDetailsRoute cancelledOrder titleBody).1.title =
      "New title" := ⟨rfl, rfl, rfl, rfl⟩

/-- C6 (amended): a detail edit is permitted exactly when the order's
status is none of in_production, in_shipping, delivered (so cancelled
orders remain editable); an edit attempted in one of those three
statuses fails with the production lock and leaves the order unchanged;
in particular editing the title of an order in in_production fails. -/
theorem detail_edit_production_lock :
    (∀ (o : OrderRec) (b : DetailsBody),
      ((updateOrderDetailsRoute o b).2 = .ok ↔
        ¬(o.status = .in_production ∨ o.status = .in_shipping ∨
          o.status = .delivered)) ∧
      ((o.status = .in_production ∨ o.status = .in_shipping ∨
          o.status = .delivered) →
        updateOrderDetailsRoute o b = (o, .orderLocked))) ∧
    updateOrderDetailsRoute inProdOrder titleBody =
      (inProdOrder, .orderLocked) := by
  refine ⟨?_, rfl⟩
  intro o b
  by_cases h : o.status = .in_production ∨ o.status = .in_shipping ∨
      o.status = .delivered
  · rw [updateOrderDetailsRoute, if_pos h]
    exact ⟨by simp [h], fun _ => rfl⟩
  · rw [updateOrderDetailsRoute, if_neg h]
    exact ⟨by simp [h], fun hx => absurd hx h⟩

/-- Witness for C6: the production-lock characterisation evaluated on
the in_production order. -/
theorem detail_edit_production_lock_witness :
    (inProdOrder.status = .in_production ∨
      inProdOrder.status = .in_shipping ∨
      inProdOrder.status = .delivered) ∧
    updateOrderDetailsRoute inProdOrder titleBody =
      (inProdOrder, .orderLocked) :=
  ⟨Or.inl rfl,
    (detail_edit_production_lock.1 inProdOrder titleBody).2 (Or.inl rfl)⟩

/-- C7 counterexample: a supplier not assigned to the (existing)
scenario order receives NotFound, not Forbidden, from the
get-order-by-id operation, because that route binds the identifier to
the parameter id while the middleware reads orderId. -/
theorem access_forbidden_counterexample :
    otherSupplierU.role = .supplier ∧
    (scenarioAOrder.supplierId == otherSupplierU.id) = false ∧
    findOrderByPk ordersDb (some "ord1") = some scenarioAOrder ∧
    canAccessOrderMW otherSupplierU (orderRouteParams "ord1") ordersDb =
      .notFound ∧
    isForbidden
      (canAccessOrderMW otherSupplierU (orderRouteParams "ord1") ordersDb)
      = false := ⟨rfl, rfl, rfl, rfl, rfl⟩

/-- C7 (amended): the canAccessOrder predicate passes exactly admins,
the order's dentist and the order's assigned supplier; on the routes
binding :orderId a non-assigned supplier is rejected with Forbidden and
an admin is never rejected, and likewise on the get-quote-by-id route's
per-route check; but the three order routes bind :id, so on them the
middleware responds NotFound to every caller, and the non-assigned
supplier of the counterexample sees NotFound rather than Forbidden
there. -/
theorem access_control_contract :
    (∀ (u : UserRec) (o : OrderRec),
      canAccessOrderCheck u o = true ↔
        (u.role = .admin ∨ (u.role = .dentist ∧ o.dentistId = u.id) ∨
          (u.role = .supplier ∧ o.supplierId = u.id))) ∧
    (∀ (u : UserRec) (v : String) (db : List (String × OrderRec))
        (o : OrderRec),
      findOrderByPk db (some v) = some o →
      u.role = .supplier → o.supplierId ≠ u.id →
        canAccessOrderMW u (orderScopedParams v) db = .forbidden) ∧
    (∀ (u : UserRec) (params : Params) (db : List (String × OrderRec)),
      u.role = .admin →
        isForbidden (canAccessOrderMW u params db) = false) ∧
    (∀ (u : UserRec) (found : Option (QuoteRec × OrderRec)),
      u.role = .admin →
        getQuoteByIdAccess u found = .forbidden → False) ∧
    (∀ (u : UserRec) (q : QuoteRec) (o : OrderRec),
      u.role = .supplier → o.supplierId ≠ u.id →
        getQuoteByIdAccess u (some (q, o)) = .forbidden) ∧
    (∀ (u : UserRec) (v : String) (db : List (String × OrderRec)),
      canAccessOrderMW u (orderRouteParams v) db = .notFound) := by
  refine ⟨?_, ?_, ?_, ?_, ?_, fun _ _ _ => rfl⟩
  · intro u o
    simp [canAccessOrderCheck, or_assoc]
  · intro u v db o h hr hne
    simp [canAccessOrderMW, orderScopedParams, h, canAccessOrderCheck,
      hr, hne]
  · intro u params db h
    cases hf : findOrderByPk db params.orderId with
    | none => simp [canAccessOrderMW, hf, isForbidden]
    | some o => simp [canAccessOrderMW, hf, canAccessOrderCheck, h,
        isForbidden]
  · intro u found h hforb
    cases found with
    | none => exact QuoteAccessOutcome.noConfusion hforb
    | some p =>
        rw [getQuoteByIdAccess] at hforb
        rw [if_neg (by simp [h]), if_neg (by simp [h])] at hforb
        exact QuoteAccessOutcome.noConfusion hforb
  · intro u q o hr hne
    rw [getQuoteByIdAccess]
    rw [if_neg (by simp [hr]), if_pos ⟨hr, hne⟩]

/-- Witness for C7: the supplier-mismatch and admin cases evaluated on
the concrete scenario data over an orderId-bound route. -/
theorem access_control_contract_witness :
    canAccessOrderMW otherSupplierU (orderScopedParams "ord1") ordersDb =
      .forbidden ∧
    isForbidden
      (canAccessOrderMW adminU (orderScopedParams "ord1") ordersDb) =
      false :=
  ⟨access_control_contract.2.1 otherSupplierU "ord1" ordersDb
      scenarioAOrder rfl rfl (by decide),
    access_control_contract.2.2.1 adminU (orderScopedParams "ord1")
      ordersDb rfl⟩

/-- C8: markRead flips isRead (stamping readAt) for exactly the
messages of the order authored by someone other than the reader; a
message outside the order or authored by the reader is untouched, an
already-read message keeps its old state (no new timestamp), every
targeted message ends up read, and running markRead again (at any later
time) changes nothing. -/
theorem markRead_exact_and_idempotent :
    ∀ (msgs : List MessageRec) (oid : String) (r : Nat) (t t' : Int),
      List.Forall₂ (fun m m' =>
        ((m.orderId = oid ∧ m.userId ≠ r) → m'.isRead = true) ∧
        ((m.orderId = oid ∧ m.userId ≠ r ∧ m.isRead = false) →
          m' = { m with isRead := true, readAt := some t }) ∧
        (¬(m.orderId = oid ∧ m.userId ≠ r) → m' = m) ∧
        (m.isRead = true → m' = m))
        msgs (markRead msgs oid r t) ∧
      markRead (markRead msgs oid r t) oid r t' = markRead msgs oid r t := by
  intro msgs oid r t t'
  induction msgs with
  | nil => exact ⟨List.Forall₂.nil, rfl⟩
  | cons m ms ih =>
      constructor
      · rw [markRead, List.map_cons]
        refine List.Forall₂.cons ?_ ih.1
        by_cases hc :
            (m.orderId == oid && m.userId != r && m.isRead == false) = true
        · rw [Bool.and_eq_true, Bool.and_eq_true] at hc
          obtain ⟨⟨ha, hb⟩, hcc⟩ := hc
          have ha' : m.orderId = oid := by simpa using ha
          have hb' : m.userId ≠ r := by simpa using hb
          have hcc' : m.isRead = false := by simpa using hcc
          rw [if_pos (by simp [ha', hb', hcc'])]
          refine ⟨fun _ => rfl, fun _ => rfl, fun hn => absurd ⟨ha', hb'⟩ hn,
            fun hr2 => absurd (hcc' ▸ hr2) (by simp)⟩
        · rw [if_neg hc]
          have hprop : ¬(m.orderId = oid ∧ m.userId ≠ r ∧
              m.isRead = false) := by
            intro ⟨h1, h2, h3⟩
            exact hc (by simp [h1, h2, h3])
          refine ⟨?_, fun hx => absurd hx hprop, fun _ => rfl, fun _ => rfl⟩
          intro ⟨h1, h2⟩
          by_contra hfalse
          have h3 : m.isRead = false := by
            cases hm : m.isRead with
            | false => rfl
            | true => exact absurd hm hfalse
          exact hprop ⟨h1, h2, h3⟩
      · simp only [markRead, List.map_cons]
        refine congrArg₂ List.cons ?_ ?_
        · by_cases hc :
              (m.orderId == oid && m.userId != r && m.isRead == false) = true
          · rw [if_pos hc]
            rw [if_neg (by simp)]
          · rw [if_neg hc, if_neg hc]
        · exact ih.2

/-- An unread message from the scenario supplier on the scenario
order. -/
def msg1 : MessageRec :=
  { id := 1, orderId := "ord1", userId := 20, isRead := false
    readAt := none }

/-- An unread message from the scenario dentist on the scenario
order. -/
def msg2 : MessageRec :=
  { id := 2, orderId := "ord1", userId := 10, isRead := false
    readAt := none }

/-- Witness for C8: the dentist's double markRead over two concrete
messages leaves the state of the first call unchanged. -/
theorem markRead_exact_and_idempotent_witness :
    markRead (markRead [msg1, msg2] "ord1" 10 50) "ord1" 10 60 =
      markRead [msg1, msg2] "ord1" 10 50 :=
  (markRead_exact_and_idempotent [msg1, msg2] "ord1" 10 50 60).2

/-- C9: the get-order-by-id, update-order-status and
update-order-details routes bind the identifier to the parameter id,
while canAccessOrder destructures orderId, so on those routes the
middleware looks up an undefined key, resolves no order and responds
NotFound for every caller — even when the targeted order exists and the
caller would otherwise be authorised. -/
theorem order_routes_param_mismatch_notFound :
    (∀ v : String, (orderRouteParams v).orderId = none) ∧
    (∀ (u : UserRec) (v : String) (db : List (String × OrderRec)),
      canAccessOrderMW u (orderRouteParams v) db = .notFound) ∧
    findOrderByPk ordersDb (some "ord1") = some scenarioAOrder ∧
    scenarioAOrder.dentistId = dentistU.id ∧
    canAccessOrderMW dentistU (orderRouteParams "ord1") ordersDb =
      .notFound ∧
    canAccessOrderMW adminU (orderRouteParams "ord1") ordersDb =
      .notFound :=
  ⟨fun _ => rfl, fun _ _ _ => rfl, rfl, rfl, rfl, rfl⟩

/-- C10 counterexample: the create-quote endpoint never stores a quote
— scenario A's create fails validation on the never-assigned NOT NULL
totalPrice — so no quote 'created through the create-quote endpoint'
exists to carry the draft status, and the parent order never moves to
quote_sent on this path. -/
theorem created_quote_never_stored_counterexample :
    createQuoteRoute supplierU (some scenarioAOrder) [defaultRule15] 100
        emptyQuoteBody 1000 "q1" = .createFailed ∧
    scenarioAOrder.status = .quote_asked := ⟨rfl, rfl⟩

/-- The supplier's no-change revision of the stored draft quote
succeeds and produces the extracted quote. -/
theorem draftRevise_eq :
    updateQuoteRoute supplierU draftQuote emptyQuoteBody =
      .ok draftRevisedQuote := rfl

/-- C10 (amended): the create-quote route never stores a quote — for
every input it fails an earlier gate or the NOT NULL validation of
totalPrice, which the create path omits and the dead hooks never set —
so the freshly-created draft quote the claim describes never arises
from this endpoint. Independently, the model default status is draft,
and for any stored quote in draft status both accept and reject fail
with the only-sent-or-modified error; a supplier update forces status
modified, after which an accept (for example by an admin) succeeds. -/
theorem created_quote_draft_blocks_decisions :
    (∀ (user : UserRec) (order : Option OrderRec)
        (rules : List PricingFactorRow) (bp : ℚ) (b : QuoteBody)
        (now : Int) (qid : String) (q : QuoteRec) (o' : OrderRec),
      createQuoteRoute user order rules bp b now qid ≠ .created q o') ∧
    (∀ q : QuoteRec, q.status = .draft →
      (∀ (u2 : UserRec) (o2 : OrderRec) (n2 : Int) (q2 : QuoteRec)
          (o3 : OrderRec), acceptQuote u2 q o2 n2 ≠ .done q2 o3) ∧
      (∀ (u2 : UserRec) (o2 : OrderRec) (reason : Option String)
          (q2 : QuoteRec) (o3 : OrderRec),
        rejectQuote u2 q o2 reason ≠ .done q2 o3) ∧
      (∀ (u3 : UserRec) (b3 : QuoteBody) (q3 : QuoteRec),
        updateQuoteRoute u3 q b3 = .ok q3 →
          q3.status = .modified ∧
          ∀ (o2 : OrderRec) (n4 : Int),
            ∃ (q4 : QuoteRec) (o4 : OrderRec),
              acceptQuote adminU q3 o2 n4 = .done q4 o4)) := by
  constructor
  · intro user order rules bp b now qid q o' h
    cases order with
    | none => exact CreateQuoteResult.noConfusion h
    | some o =>
        simp only [createQuoteRoute] at h
        split_ifs at h
        all_goals
          first
          | exact CreateQuoteResult.noConfusion h
          | simp_all [quoteNotNullOk]
  · intro q hdraft
    refine ⟨?_, ?_, ?_⟩
    · intro u2 o2 n2 q2 o3 hdone
      rcases (acceptQuote_done_facts u2 q o2 n2 q2 o3 hdone).2.2.1
          with hs | hs
      · rw [hdraft] at hs
        exact QuoteStatus.noConfusion hs
      · rw [hdraft] at hs
        exact QuoteStatus.noConfusion hs
    · intro u2 o2 reason q2 o3 hdone
      rcases rejectQuote_done_status u2 q o2 reason q2 o3 hdone
          with hs | hs
      · rw [hdraft] at hs
        exact QuoteStatus.noConfusion hs
      · rw [hdraft] at hs
        exact QuoteStatus.noConfusion hs
    · intro u3 b3 q3 hup
      have hmod : q3.status = .modified := by
        rw [updateQuoteRoute] at hup
        by_cases h1 : u3.role = .supplier ∧ q.supplierId ≠ u3.id
        · rw [if_pos h1] at hup
          exact UpdateQuoteResult.noConfusion hup
        · rw [if_neg h1] at hup
          by_cases h2 : q.status = .accepted
          · rw [if_pos h2] at hup
            exact UpdateQuoteResult.noConfusion hup
          · rw [if_neg h2] at hup
            injection hup with hq3
            rw [quoteBeforeSave_eq_id] at hq3
            rw [← hq3]
      exact ⟨hmod, fun o2 n4 =>
        acceptQuote_succeeds adminU q3 o2 n4 (Or.inr rfl)
          (fun hd => Role.noConfusion hd) (Or.inr hmod)⟩

/-- Witness for C10: evaluated on the stored draft quote, accept by the
dentist fails, the supplier's revision forces status modified and an
admin accept then succeeds; and the scenario A create indeed stores
nothing. -/
theorem created_quote_draft_blocks_decisions_witness :
    draftQuote.status = .draft ∧
    acceptQuote dentistU draftQuote quoteSentOrder 5 ≠
      .done draftQuote quoteSentOrder ∧
    draftRevisedQuote.status = .modified ∧
    (∃ (q4 : QuoteRec) (o4 : OrderRec),
      acceptQuote adminU draftRevisedQuote quoteSentOrder 7 =
        .done q4 o4) ∧
    createQuoteRoute supplierU (some scenarioAOrder) [defaultRule15] 100
      emptyQuoteBody 1000 "q1" ≠ .created draftQuote quoteSentOrder :=
  ⟨rfl,
    (created_quote_draft_blocks_decisions.2 draftQuote rfl).1 dentistU
      quoteSentOrder 5 draftQuote quoteSentOrder,
    ((created_quote_draft_blocks_decisions.2 draftQuote rfl).2.2 supplierU
      emptyQuoteBody draftRevisedQuote draftRevise_eq).1,
    ((created_quote_draft_blocks_decisions.2 draftQuote rfl).2.2 supplierU
      emptyQuoteBody draftRevisedQuote draftRevise_eq).2 quoteSentOrder 7,
    created_quote_draft_blocks_decisions.1 supplierU (some scenarioAOrder)
      [defaultRule15] 100 emptyQuoteBody 1000 "q1" draftQuote
      quoteSentOrder⟩

end Theorems

end ProjectG
